import Mathlib

/-!
Verification of the FlameGreat-1/Agent HTTP gateway (speech-to-text,
text generation, text-to-speech, and the /process pipeline) against its
natural-language specification.  The Lean definitions below are a shallow
embedding of the Python source under src/app: each per-request handler or
service method becomes a pure Lean function of the request data plus an
explicit environment value describing what the external engine or
transport did during the call (exit code, stdout, emitted stream lines,
raised transport error, ...).  Machine-level concerns that the claims do
not touch (actual subprocess spawning, wall-clock latency metrics,
logging) are elided; everything the claims mention is modelled from the
source text.
-/

/-! ### Stream events (src/app/core/llm.py)

A `StreamEvent` models the dicts yielded by
`LanguageModelService._handle_streaming` (sync generator) and
`LanguageModelService.generate_async` (async generator): a text delta,
an optional `finish_reason`, and an optional error message. -/

structure StreamEvent where
  text : String
  finish_reason : Option String := none
  error : Option String := none
  deriving DecidableEq

/-- Event for one backend chunk: `{"text": t, "finish_reason": None}`. -/
def mkChunkEvent (t : String) : StreamEvent :=
  { text := t, finish_reason := none }

/-- Terminal success event: `{"text": "", "finish_reason": "stop"}`. -/
def stopEvent : StreamEvent :=
  { text := "", finish_reason := some "stop" }

/-- Terminal error event yielded by `generate_async`'s except branch:
`{"text": "", "error": str(e), "finish_reason": "error"}`. -/
def errorEvent (e : String) : StreamEvent :=
  { text := "", finish_reason := some "error", error := some e }

/-- Outcome of the backend HTTP stream: either it closes normally after
all lines, or a transport/backend error (`requests.RequestException` /
`aiohttp` error) strikes after the given lines were received. -/
inductive TransportOutcome where
  | ok : TransportOutcome
  | err : String → TransportOutcome
  deriving DecidableEq

/-- Trace of events yielded by the sync generator
`LanguageModelService._handle_streaming` (llm.py lines 122-164), as a
function of the chunk texts parsed from the non-empty lines the backend
delivered (`for line in response.iter_lines(): if line: ...`) and of how
the transport ended.  On normal completion the generator yields one
chunk event per line and then the terminal stop event.  On a
`requests.RequestException` the except branch executes `return {...}`
inside a generator body: the error dict is attached to StopIteration and
never yielded, so iteration simply stops after the chunks already
yielded. -/
def syncStreamEvents : List String → TransportOutcome → List StreamEvent
  | [], .ok => [stopEvent]
  | [], .err _ => []
  | t :: rest, outc => mkChunkEvent t :: syncStreamEvents rest outc

/-- Trace of events yielded by the async generator
`LanguageModelService.generate_async` (llm.py lines 208-245).  Each
received line is either `some t` (a JSON line whose "response" field is
`t`) or `none` (a line `json.loads` rejects, skipped by the
`except json.JSONDecodeError: continue` branch).  On normal completion
the stop event is yielded; on any exception the outer except branch
yields exactly one error event and the generator ends. -/
def asyncStreamEvents : List (Option String) → TransportOutcome → List StreamEvent
  | [], .ok => [stopEvent]
  | [], .err e => [errorEvent e]
  | none :: rest, outc => asyncStreamEvents rest outc
  | some t :: rest, outc => mkChunkEvent t :: asyncStreamEvents rest outc

/-! ### Configuration (src/app/config.py) -/

/-- The `Settings` fields the claims touch, with the defaults from
config.py: `API_KEY_ENABLED` defaults to true, `API_KEY` to `None`,
`OLLAMA_MODEL` to "agent-model:latest". -/
structure Settings where
  API_KEY_ENABLED : Bool := true
  API_KEY : Option String := none
  OLLAMA_MODEL : String := "agent-model:latest"
  deriving DecidableEq

/-- The module-level `settings = Settings()` instance with every field
left at its default (no environment overrides). -/
def settings : Settings := {}

/-! ### Python truthiness helper -/

/-- Python `x or d` for an optional string `x`: `d` when `x` is `None`
or the empty string (both falsy), else the string itself.  Used for
`job_id = job_id or llm_result["job_id"]` (router.py line 344) and
`language or "auto"` (stt.py line 113). -/
def pyOrStr (o : Option String) (d : String) : String :=
  match o with
  | some s => if s = "" then d else s
  | none => d

/-! ### Base64 encoding (router.py uses base64.b64encode on audio bytes) -/

def base64Chars : List Char :=
  "ABCDEFGHIJKLMNOPQRSTUVWXYZabcdefghijklmnopqrstuvwxyz0123456789+/".toList

def base64Digit (n : Nat) : Char := base64Chars.getD n '='

/-- Standard base64 of a byte list, 3 bytes to 4 characters with '='
padding, as `base64.b64encode` produces. -/
def base64EncodeAux : List Nat → List Char
  | [] => []
  | [b1] => [base64Digit (b1 / 4), base64Digit (b1 % 4 * 16), '=', '=']
  | [b1, b2] =>
      [base64Digit (b1 / 4), base64Digit (b1 % 4 * 16 + b2 / 16),
       base64Digit (b2 % 16 * 4), '=']
  | b1 :: b2 :: b3 :: rest =>
      base64Digit (b1 / 4) :: base64Digit (b1 % 4 * 16 + b2 / 16) ::
      base64Digit (b2 % 16 * 4 + b3 / 64) :: base64Digit (b3 % 64) ::
      base64EncodeAux rest

def base64Encode (bytes : List Nat) : String :=
  String.mk (base64EncodeAux bytes)

/-! ### Speech-to-text adapter (src/app/core/stt.py) -/

/-- Fixed stand-ins for the random `tempfile.NamedTemporaryFile` names;
only identity and the `.txt` suffix relation matter. -/
def sttTempPath : String := "/tmp/sttaudio.wav"

def sttTxtPath : String := sttTempPath ++ ".txt"

/-- What the external whisper.cpp process did during one
`SpeechToTextService.transcribe` call: its exit code, its stdout and
stderr, and whether it wrote the `--output-txt` transcript file
`{temp_path}.txt` (with the given content). -/
structure SttEnv where
  exitCode : Int
  stdout : String
  stderr : String
  createsTxt : Bool
  txtContent : String
  deriving DecidableEq

/-- The result dict of `SpeechToTextService.transcribe`.  Optional
fields model keys present only in one of the two return shapes: the
success dict has `text` and `language`, the failure dict has `error`. -/
structure SttResult where
  job_id : String
  text : Option String := none
  language : Option String := none
  success : Bool
  error : Option String := none
  deriving DecidableEq

/-- `SpeechToTextService.transcribe` (stt.py lines 43-127).  Returns the
result dict together with the list of temporary-file paths still
existing when the call returns.  The audio temp file is created inside
the try block; whisper.cpp runs and writes the transcript text file iff
`env.createsTxt`; a nonzero exit code raises RuntimeError, which the
`except Exception` branch converts to the failure dict; the `finally`
block removes the audio temp file on every path, while the transcript
text file is removed only on the success path (lines 101-106). -/
def sttTranscribe (jobId : String) (language : Option String) (env : SttEnv) :
    SttResult × List String :=
  let fsAfterRun : List String :=
    if env.createsTxt then [sttTempPath, sttTxtPath] else [sttTempPath]
  if env.exitCode ≠ 0 then
    ({ job_id := jobId, success := false,
       error := some ("Whisper transcription failed: " ++ env.stderr) },
     fsAfterRun.filter (fun p => p ≠ sttTempPath))
  else
    let transcription :=
      if env.createsTxt then env.txtContent.trim else env.stdout.trim
    ({ job_id := jobId, text := some transcription,
       language := some (pyOrStr language "auto"), success := true },
     (fsAfterRun.filter (fun p => p ≠ sttTxtPath)).filter (fun p => p ≠ sttTempPath))

/-! ### Text-to-speech adapter (src/app/core/tts.py) -/

def ttsOutputPath (fmt : String) : String := "/tmp/ttsout." ++ fmt

/-- What the external piper process did during one
`TextToSpeechService.synthesize` call. -/
structure TtsEnv where
  exitCode : Int
  stderr : String
  audioData : List Nat
  deriving DecidableEq

/-- The result dict of `TextToSpeechService.synthesize`: the success
dict has `audio_data`, `format` and `text_length`; the failure dict has
`error`. -/
structure TtsResult where
  job_id : String
  audio_data : Option (List Nat) := none
  format : Option String := none
  success : Bool
  error : Option String := none
  text_length : Option Nat := none
  deriving DecidableEq

/-- `TextToSpeechService.synthesize` (tts.py lines 43-122).  The output
temp file is created inside the try block; piper writes the audio;
a nonzero exit code raises RuntimeError, converted by `except Exception`
to the failure dict; the `finally` block removes the output temp file on
every path, so the remaining-file list is empty on both branches. -/
def ttsSynthesize (jobId : String) (text : String) (speaker : Option String)
    (fmt : String) (env : TtsEnv) : TtsResult × List String :=
  if env.exitCode ≠ 0 then
    ({ job_id := jobId, success := false,
       error := some ("TTS synthesis failed: " ++ env.stderr) }, [])
  else
    ({ job_id := jobId, audio_data := some env.audioData, format := some fmt,
       success := true, text_length := some text.length }, [])

/-! ### Language-model adapter, non-streaming (src/app/core/llm.py) -/

/-- Outcome of the one HTTP POST to Ollama during a non-streaming
`LanguageModelService.generate` call: either a JSON body (its
"response" text and the two token counts `prompt_eval_count` /
`eval_count`), or a raised `requests.RequestException` with message. -/
inductive LlmBackend where
  | ok : String → Nat → Nat → LlmBackend
  | raise : String → LlmBackend
  deriving DecidableEq

structure LlmUsage where
  prompt_tokens : Nat
  completion_tokens : Nat
  total_tokens : Nat
  deriving DecidableEq

/-- The result dict of non-streaming `LanguageModelService.generate`:
the success dict (llm.py lines 97-112) carries text, model, usage and
finish_reason; the failure dict (lines 116-120) carries only job_id,
error and success. -/
structure LlmResult where
  job_id : String
  text : Option String := none
  model : Option String := none
  success : Bool
  usage : Option LlmUsage := none
  finish_reason : Option String := none
  error : Option String := none
  deriving DecidableEq

/-- Non-streaming `LanguageModelService.generate` (llm.py lines 38-120).
The prompt, system prompt, temperature and max_tokens are sent in the
request payload and do not shape the returned dict; the
`except requests.RequestException` branch converts any transport or
HTTP-status error into the structured failure dict. -/
def llmGenerate (jobId modelName : String) (prompt : Option String)
    (system_prompt : Option String) (temperature : Rat) (maxTokens : Nat)
    (backend : LlmBackend) : LlmResult :=
  match backend with
  | .ok resp pe ec =>
      { job_id := jobId, text := some resp, model := some modelName,
        success := true, usage := some ⟨pe, ec, pe + ec⟩,
        finish_reason := some "stop" }
  | .raise e => { job_id := jobId, success := false, error := some e }

/-! ### Request validation (src/app/api/schemas.py) -/

/-- The condition inside `ProcessRequest.validate_input` (schemas.py
lines 87-92): the validator raises ValueError exactly when neither
"audio_base64" nor "text" is among the already-processed field values it
is shown. -/
def eitherProvidedCheckRaises (values : List String) : Bool :=
  !(values.contains "audio_base64") && !(values.contains "text")

/-- Pydantic field-validation pass for `ProcessRequest`, restricted to
the `validate_input` validator registered on `audio_base64` and `text`.
Fields are processed in declaration order (`audio_base64` first, then
`text`); a field's validator runs only when the field was supplied in
the request body (defaults are not validated); the `values` mapping
shown to a validator holds the names of the fields declared earlier that
passed (a field that was supplied and whose validator raised is absent,
while an earlier field filled from its default is present).  Returns
true iff the request body passes validation. -/
def validateProcessRequestFields (audioSupplied textSupplied : Bool) : Bool :=
  let audioOk := if audioSupplied then !(eitherProvidedCheckRaises []) else true
  let valuesAtText := if audioOk then ["audio_base64"] else []
  let textOk :=
    if textSupplied then !(eitherProvidedCheckRaises valuesAtText) else true
  audioOk && textOk

/-! ### Request/response schemas seen by the router -/

/-- `ProcessRequest` (schemas.py lines 78-92) after parsing. -/
structure ProcessRequest where
  audio_base64 : Option String := none
  text : Option String := none
  system_prompt : Option String := none
  return_audio : Bool := true
  language : Option String := none
  temperature : Rat := (7 : Rat) / 10
  deriving DecidableEq

/-- `ProcessResponse` (schemas.py lines 94-102): the dict the process
endpoint returns on success.  The endpoint never sets the optional
`error` field. -/
structure ProcessResponse where
  job_id : String
  input_text : Option String := none
  output_text : String
  audio_base64 : Option String := none
  format : Option String := none
  success : Bool
  error : Option String := none
  deriving DecidableEq

/-- One call of the process endpoint ends either in a response body or
in a raised `HTTPException` with a status code and a detail string
(FastAPI renders the latter as `{"detail": ...}` with no other field). -/
inductive ProcessOutcome where
  | ok : ProcessResponse → ProcessOutcome
  | httpError : Nat → String → ProcessOutcome
  deriving DecidableEq

/-- Which service singletons a request handler actually invoked, in
order.  Models the call-count assertions the spec describes for mocked
adapters. -/
inductive AdapterCall where
  | stt
  | llm
  | tts
  deriving DecidableEq

/-- The fresh `uuid.uuid4()` job identifiers each service call would
generate. -/
structure JobIds where
  stt : String
  llm : String
  tts : String
  deriving DecidableEq

/-- Behavior of the three external engines during one pipeline run. -/
structure PipelineEnv where
  stt : SttEnv
  llm : LlmBackend
  tts : TtsEnv
  deriving DecidableEq

/-! ### The /process pipeline (src/app/api/router.py lines 289-384) -/

/-- Steps 2 and 3 of the process endpoint (router.py lines 328-376):
generation, optional synthesis, and response assembly, given the input
text and job id resolved by step 1 and the adapter calls made so far.
A stage failure raises HTTPException(500, stage error) which the
`except HTTPException: raise` branch re-raises; the impossible
missing-dict-key branches model the KeyError a malformed adapter result
would raise into the endpoint's generic except handler. -/
def processAfterTranscription (inputText : Option String)
    (jobId0 : Option String) (trace0 : List AdapterCall)
    (req : ProcessRequest) (ids : JobIds) (env : PipelineEnv) :
    ProcessOutcome × List AdapterCall :=
  let llmR := llmGenerate ids.llm settings.OLLAMA_MODEL inputText
    req.system_prompt req.temperature 1024 env.llm
  let trace1 := trace0 ++ [AdapterCall.llm]
  if llmR.success then
    match llmR.text with
    | none => (.httpError 500 "KeyError: text", trace1)
    | some outputText =>
      let finalJobId := pyOrStr jobId0 llmR.job_id
      if req.return_audio then
        let ttsPair := ttsSynthesize ids.tts outputText none "wav" env.tts
        let ttsR := ttsPair.1
        let trace2 := trace1 ++ [AdapterCall.tts]
        if ttsR.success then
          match ttsR.audio_data, ttsR.format with
          | some bytes, some fmt =>
            (.ok { job_id := finalJobId, input_text := inputText,
                   output_text := outputText,
                   audio_base64 := some (base64Encode bytes),
                   format := some fmt, success := true }, trace2)
          | _, _ => (.httpError 500 "KeyError: audio_data", trace2)
        else (.httpError 500 (ttsR.error.getD "Speech synthesis failed"), trace2)
      else
        (.ok { job_id := finalJobId, input_text := inputText,
               output_text := outputText, audio_base64 := none,
               format := none, success := true }, trace1)
  else (.httpError 500 (llmR.error.getD "Text generation failed"), trace1)

/-- The `process` endpoint body (router.py lines 289-384) for an
already-validated request: step 1 transcribes when `audio_base64` is
present (aborting with HTTPException(500) on failure), otherwise takes
`request.text` as the input text; then steps 2 and 3.  Returns the
outcome together with the ordered list of adapter calls made. -/
def process (req : ProcessRequest) (ids : JobIds) (env : PipelineEnv) :
    ProcessOutcome × List AdapterCall :=
  match req.audio_base64 with
  | some _ =>
    let sttPair := sttTranscribe ids.stt req.language env.stt
    let sttR := sttPair.1
    if sttR.success then
      match sttR.text with
      | some t =>
          processAfterTranscription (some t) (some sttR.job_id)
            [AdapterCall.stt] req ids env
      | none => (.httpError 500 "KeyError: text", [AdapterCall.stt])
    else
      (.httpError 500 (sttR.error.getD "Transcription failed"),
       [AdapterCall.stt])
  | none => processAfterTranscription req.text none [] req ids env

/-! ### The /generate endpoint (src/app/api/router.py lines 128-173) -/

/-- `GenerationRequest` (schemas.py lines 46-51).  Note: the schema has
no stream flag of any kind. -/
structure GenerationRequest where
  prompt : String
  system_prompt : Option String := none
  temperature : Rat := (7 : Rat) / 10
  max_tokens : Nat := 1024
  deriving DecidableEq

/-- Possible shapes of a /generate reply.  The `sseStream` constructor
(a list of server-sent-event frames) exists only so that the spec's
claimed streaming behavior is statable; the code never constructs it. -/
inductive GenerateOutcome where
  | jsonResponse : LlmResult → GenerateOutcome
  | httpError : Nat → String → GenerateOutcome
  | sseStream : List String → GenerateOutcome
  deriving DecidableEq

def GenerateOutcome.isSSE : GenerateOutcome → Bool
  | .sseStream _ => true
  | _ => false

/-- The `generate` endpoint body (router.py lines 133-173): it always
calls `llm_service.generate` without a stream argument (so non-streaming
mode), returns the result dict as a `GenerationResponse` on success and
raises HTTPException(500, error) on failure. -/
def generateEndpoint (req : GenerationRequest) (jid : String)
    (backend : LlmBackend) : GenerateOutcome :=
  let r := llmGenerate jid settings.OLLAMA_MODEL (some req.prompt)
    req.system_prompt req.temperature req.max_tokens backend
  if r.success then .jsonResponse r
  else .httpError 500 (r.error.getD "Text generation failed")

/-! ### API-key authentication (src/app/api/router.py lines 36-56) -/

/-- `validate_api_key`: when `API_KEY_ENABLED`, a missing or empty
`x-api-key` header raises HTTPException(401, "API key is required")
(Python `not x_api_key` is true for both `None` and `""`), and a header
differing from `settings.API_KEY` raises
HTTPException(401, "Invalid API key"); the comparison is Python `==`
between the header string and the optional configured key, so a string
never equals a configured `None`. -/
def validate_api_key (s : Settings) (x_api_key : Option String) :
    Except (Nat × String) Unit :=
  if s.API_KEY_ENABLED then
    match x_api_key with
    | none => .error (401, "API key is required")
    | some k =>
      if k = "" then .error (401, "API key is required")
      else if s.API_KEY = some k then .ok ()
      else .error (401, "Invalid API key")
  else .ok ()

/-- A router endpoint other than /health, as FastAPI runs it: the
`Depends(validate_api_key)` dependency is resolved before the handler
body, so an authentication failure produces the 401 error response and
the handler (with whatever adapter calls it would make) never runs. -/
def endpointWithAuth {α : Type} (mkErr : Nat → String → α) (s : Settings)
    (header : Option String) (handler : Unit → α × List AdapterCall) :
    α × List AdapterCall :=
  match validate_api_key s header with
  | .error cd => (mkErr cd.1 cd.2, [])
  | .ok _ => handler ()

/-! ### Theorems -/

/-- Events of the sync streaming generator on a normally-closing backend
stream: one chunk event per backend line, in order, then the stop
event. -/
theorem syncStreamEvents_ok_eq (chunks : List String) :
    syncStreamEvents chunks TransportOutcome.ok =
      chunks.map mkChunkEvent ++ [stopEvent] := by
  induction chunks with
  | nil => rfl
  | cons c rest ih => simp [syncStreamEvents, ih]

/-- Events of the async streaming generator on a normally-closing
backend stream of well-formed lines: same shape as the sync one. -/
theorem asyncStreamEvents_ok_eq (chunks : List String) :
    asyncStreamEvents (chunks.map some) TransportOutcome.ok =
      chunks.map mkChunkEvent ++ [stopEvent] := by
  induction chunks with
  | nil => rfl
  | cons c rest ih => simp [asyncStreamEvents, ih]

/-- Claim C3: for every streaming generation whose backend successfully
emits N non-empty text chunks, the event sequence (of both the sync
generator `_handle_streaming` and the async generator `generate_async`)
has exactly N+1 events: N chunk events with null finish_reason, in
backend order, followed by exactly one terminal stop event, and no event
follows the terminal event. -/
theorem c3_stream_event_shape (chunks : List String)
    (h : ∀ c ∈ chunks, c ≠ "") :
    syncStreamEvents chunks TransportOutcome.ok =
      chunks.map mkChunkEvent ++ [stopEvent] ∧
    asyncStreamEvents (chunks.map some) TransportOutcome.ok =
      chunks.map mkChunkEvent ++ [stopEvent] ∧
    (syncStreamEvents chunks TransportOutcome.ok).length =
      chunks.length + 1 ∧
    (∀ e ∈ chunks.map mkChunkEvent, e.finish_reason = none) ∧
    stopEvent.finish_reason = some "stop" := by
  refine ⟨syncStreamEvents_ok_eq chunks, asyncStreamEvents_ok_eq chunks, ?_, ?_, rfl⟩
  · rw [syncStreamEvents_ok_eq]; simp
  · intro e he
    simp only [List.mem_map] at he
    obtain ⟨c, _, rfl⟩ := he
    rfl

theorem c3_stream_event_shape_witness :
    (∀ c ∈ ["He", "llo"], c ≠ "") ∧
    (syncStreamEvents ["He", "llo"] TransportOutcome.ok =
       List.map mkChunkEvent ["He", "llo"] ++ [stopEvent] ∧
     asyncStreamEvents (List.map some ["He", "llo"]) TransportOutcome.ok =
       List.map mkChunkEvent ["He", "llo"] ++ [stopEvent] ∧
     (syncStreamEvents ["He", "llo"] TransportOutcome.ok).length =
       (["He", "llo"] : List String).length + 1 ∧
     (∀ e ∈ List.map mkChunkEvent ["He", "llo"], e.finish_reason = none) ∧
     stopEvent.finish_reason = some "stop") :=
  ⟨by decide, c3_stream_event_shape ["He", "llo"] (by decide)⟩

/-- Claim C4 (divergence evidence): when a transport error strikes the
sync generator `_handle_streaming` mid-stream after one chunk, the
consumer sees only the chunk event and the stream ends with no terminal
event at all (every yielded event has null finish_reason): the except
branch's error dict is produced by `return` inside a generator, so it is
never yielded.  The async generator `generate_async`, by contrast, ends
the same stream with exactly one terminal event whose finish_reason is
"error", as the claim requires. -/
theorem c4_sync_stream_error_divergence :
    syncStreamEvents ["Hi"] (TransportOutcome.err "boom") =
      [mkChunkEvent "Hi"] ∧
    (∀ e ∈ syncStreamEvents ["Hi"] (TransportOutcome.err "boom"),
       e.finish_reason = none) ∧
    asyncStreamEvents [some "Hi"] (TransportOutcome.err "boom") =
      [mkChunkEvent "Hi", errorEvent "boom"] ∧
    (errorEvent "boom").finish_reason = some "error" := by
  exact ⟨rfl, by decide, rfl, rfl⟩

/-- Claim C5: for every adapter call (transcribe, non-streaming
generate, synthesize) whose external engine or transport fails — a
nonzero whisper exit code, a nonzero piper exit code, or a raised
`requests.RequestException` — the adapter returns the structured failure
dict `{success: false, error: message, job_id}` of that call instead of
propagating a raw exception (each modelled adapter is a total function
into its result type, with the except branch producing the failure
record). -/
theorem c5_adapter_failure_normalization (jid e text fmt mdl : String)
    (lang spk prompt sys : Option String) (temp : Rat) (mt : Nat)
    (senv : SttEnv) (tenv : TtsEnv)
    (hs : senv.exitCode ≠ 0) (ht : tenv.exitCode ≠ 0) :
    (sttTranscribe jid lang senv).1 =
      { job_id := jid, success := false,
        error := some ("Whisper transcription failed: " ++ senv.stderr) } ∧
    (ttsSynthesize jid text spk fmt tenv).1 =
      { job_id := jid, success := false,
        error := some ("TTS synthesis failed: " ++ tenv.stderr) } ∧
    llmGenerate jid mdl prompt sys temp mt (LlmBackend.raise e) =
      { job_id := jid, success := false, error := some e } := by
  refine ⟨?_, ?_, rfl⟩
  · simp [sttTranscribe, hs]
  · simp [ttsSynthesize, ht]

theorem c5_adapter_failure_normalization_witness :
    ((⟨1, "", "whisper broke", false, ""⟩ : SttEnv).exitCode ≠ 0 ∧
     (⟨1, "piper broke", []⟩ : TtsEnv).exitCode ≠ 0) ∧
    ((sttTranscribe "j" none ⟨1, "", "whisper broke", false, ""⟩).1 =
       { job_id := "j", success := false,
         error := some ("Whisper transcription failed: " ++ "whisper broke") } ∧
     (ttsSynthesize "j" "hi" none "wav" ⟨1, "piper broke", []⟩).1 =
       { job_id := "j", success := false,
         error := some ("TTS synthesis failed: " ++ "piper broke") } ∧
     llmGenerate "j" "m" (some "p") none ((7 : Rat) / 10) 9
         (LlmBackend.raise "boom") =
       { job_id := "j", success := false, error := some "boom" }) :=
  ⟨⟨by decide, by decide⟩,
   c5_adapter_failure_normalization "j" "boom" "hi" "wav" "m" none none
     (some "p") none ((7 : Rat) / 10) 9 ⟨1, "", "whisper broke", false, ""⟩
     ⟨1, "piper broke", []⟩ (by decide) (by decide)⟩

/-- Claim C8: for every endpoint behind `Depends(validate_api_key)`
(every router endpoint; only /health lacks it) and every handler body,
when authentication is enabled and the x-api-key header is missing or
does not match the configured secret, the request ends in a 401
unauthorized response and the handler body never runs, so no adapter is
called and no adapter side effect happens (the adapter-call trace is
empty). -/
theorem c8_auth_rejects_before_adapters {α : Type} (mkErr : Nat → String → α)
    (s : Settings) (header : Option String)
    (handler : Unit → α × List AdapterCall)
    (hE : s.API_KEY_ENABLED = true)
    (hBad : header = none ∨ header ≠ s.API_KEY) :
    ∃ d, endpointWithAuth mkErr s header handler = (mkErr 401 d, []) := by
  cases header with
  | none =>
    exact ⟨"API key is required", by simp [endpointWithAuth, validate_api_key, hE]⟩
  | some k =>
    have hne : s.API_KEY ≠ some k := by
      rcases hBad with h | h
      · exact absurd h (by simp)
      · exact fun hkey => h hkey.symm
    by_cases hk : k = ""
    · exact ⟨"API key is required",
        by simp [endpointWithAuth, validate_api_key, hE, hk]⟩
    · exact ⟨"Invalid API key",
        by simp [endpointWithAuth, validate_api_key, hE, hk, hne]⟩

theorem c8_auth_rejects_before_adapters_witness :
    (settings.API_KEY_ENABLED = true ∧
     ((none : Option String) = none ∨ (none : Option String) ≠ settings.API_KEY)) ∧
    ∃ d, endpointWithAuth ProcessOutcome.httpError settings none
        (fun _ =>
          process { text := some "hi", return_audio := false } ⟨"a", "b", "c"⟩
            ⟨⟨0, "", "", false, ""⟩, LlmBackend.ok "resp" 1 2, ⟨0, "", []⟩⟩) =
      (ProcessOutcome.httpError 401 d, []) :=
  ⟨⟨rfl, Or.inl rfl⟩,
   c8_auth_rejects_before_adapters ProcessOutcome.httpError settings none _
     rfl (Or.inl rfl)⟩

/-- Claim C10: with config.py defaults (API_KEY_ENABLED true, API_KEY
None), `validate_api_key` raises an unauthorized 401 error for every
request: "API key is required" when the x-api-key header is absent, and
"Invalid API key" for every non-empty header value, because a string
never compares equal to the unset (None) secret — no request can pass
authentication until a secret is explicitly configured. -/
theorem c10_unset_key_rejects_everything (k : String) (hk : k ≠ "") :
    settings.API_KEY_ENABLED = true ∧ settings.API_KEY = none ∧
    validate_api_key settings none =
      Except.error (401, "API key is required") ∧
    validate_api_key settings (some k) =
      Except.error (401, "Invalid API key") := by
  refine ⟨rfl, rfl, rfl, ?_⟩
  simp [validate_api_key, settings, hk]

theorem c10_unset_key_rejects_everything_witness :
    ("x" ≠ "") ∧
    (settings.API_KEY_ENABLED = true ∧ settings.API_KEY = none ∧
     validate_api_key settings none =
       Except.error (401, "API key is required") ∧
     validate_api_key settings (some "x") =
       Except.error (401, "Invalid API key")) :=
  ⟨by decide, c10_unset_key_rejects_everything "x" (by decide)⟩

/-- Claim C1 (counterexample): at a concrete run where transcription
succeeds (exit code 0, transcript "hello") and generation then fails
(transport error "boom"), the process endpoint does not return any
ProcessResponse at all — in particular none with success=false and the
transcribed text — because it raises HTTPException(500, "boom"), whose
rendered body is only `{"detail": "boom"}`. -/
theorem c1_counterexample :
    ¬ ∃ r : ProcessResponse,
        (process { audio_base64 := some "UklGRg==" } ⟨"js", "jl", "jt"⟩
            ⟨⟨0, "hello", "", false, ""⟩, LlmBackend.raise "boom",
             ⟨0, "", []⟩⟩).1 =
          ProcessOutcome.ok r ∧
        r.success = false ∧ r.input_text = some "hello" := by
  have h : (process { audio_base64 := some "UklGRg==" } ⟨"js", "jl", "jt"⟩
      ⟨⟨0, "hello", "", false, ""⟩, LlmBackend.raise "boom", ⟨0, "", []⟩⟩).1 =
      ProcessOutcome.httpError 500 "boom" := by
    simp [process, sttTranscribe, processAfterTranscription, llmGenerate]
  rintro ⟨r, hr, -, -⟩
  rw [h] at hr
  exact ProcessOutcome.noConfusion hr

/-- Claim C1 (amended): for every pipeline run in which the
Transcription stage succeeds and the Generation stage then fails, the
process endpoint aborts by raising HTTPException with status 500 and the
generation stage's error message as detail; the transcribed text is not
part of the response, and only the transcription and generation adapters
were invoked. -/
theorem c1_amended_generation_failure_aborts (a e : String)
    (req : ProcessRequest) (ids : JobIds) (env : PipelineEnv)
    (senv : SttEnv) :
    process { req with audio_base64 := some a } ids
        { env with stt := { senv with exitCode := 0 },
                   llm := LlmBackend.raise e } =
      (ProcessOutcome.httpError 500 e, [AdapterCall.stt, AdapterCall.llm]) := by
  simp [process, sttTranscribe, processAfterTranscription, llmGenerate]

/-- Claim C2 (counterexample): at a concrete run where generation
succeeds (text "fine") and synthesis then fails (piper exit code 1), the
process endpoint does not return any ProcessResponse at all — so the
generated text is not attached to anything — because it raises
HTTPException(500, synthesis error), whose rendered body is only the
detail string. -/
theorem c2_counterexample :
    ¬ ∃ r : ProcessResponse,
        (process { text := some "hi", return_audio := true } ⟨"js", "jl", "jt"⟩
            ⟨⟨0, "", "", false, ""⟩, LlmBackend.ok "fine" 1 2,
             ⟨1, "piper broke", []⟩⟩).1 =
          ProcessOutcome.ok r ∧ r.output_text = "fine" := by
  have h : (process { text := some "hi", return_audio := true }
      ⟨"js", "jl", "jt"⟩
      ⟨⟨0, "", "", false, ""⟩, LlmBackend.ok "fine" 1 2,
       ⟨1, "piper broke", []⟩⟩).1 =
      ProcessOutcome.httpError 500 ("TTS synthesis failed: " ++ "piper broke") := by
    simp [process, processAfterTranscription, llmGenerate, ttsSynthesize]
  rintro ⟨r, hr, -⟩
  rw [h] at hr
  exact ProcessOutcome.noConfusion hr

/-- Claim C2 (amended): for every pipeline run in which the Generation
stage succeeds and the Synthesis stage then fails — whatever the input
shape: audio input with a successful transcription, a text body, or
even a body with neither — the process endpoint aborts by raising
HTTPException with status 500 and the synthesis error message as
detail; the already-produced generated text is discarded (the error
response carries only the detail string), after invoking the generation
and synthesis adapters (preceded by the transcription adapter on audio
input). -/
theorem c2_amended_synthesis_failure_discards_text (req : ProcessRequest)
    (ids : JobIds) (env : PipelineEnv) (t : String) (pe ce : Nat)
    (hllm : env.llm = LlmBackend.ok t pe ce)
    (htts : env.tts.exitCode ≠ 0)
    (hstep1 : req.audio_base64 = none ∨ env.stt.exitCode = 0)
    (hret : req.return_audio = true) :
    process req ids env =
      (ProcessOutcome.httpError 500 ("TTS synthesis failed: " ++ env.tts.stderr),
       (match req.audio_base64 with
        | some _ => [AdapterCall.stt]
        | none => []) ++ [AdapterCall.llm, AdapterCall.tts]) := by
  cases haud : req.audio_base64 with
  | none =>
    simp [process, haud, processAfterTranscription, hllm, llmGenerate,
      ttsSynthesize, htts, hret]
  | some a =>
    have h0 : env.stt.exitCode = 0 := by
      rcases hstep1 with h | h
      · rw [haud] at h; exact absurd h (by simp)
      · exact h
    simp [process, haud, sttTranscribe, h0, processAfterTranscription, hllm,
      llmGenerate, ttsSynthesize, htts, hret]

theorem c2_amended_synthesis_failure_discards_text_witness :
    ((⟨⟨0, "", "", false, ""⟩, LlmBackend.ok "fine" 1 2,
       ⟨1, "piper broke", []⟩⟩ : PipelineEnv).llm = LlmBackend.ok "fine" 1 2 ∧
     (⟨⟨0, "", "", false, ""⟩, LlmBackend.ok "fine" 1 2,
       ⟨1, "piper broke", []⟩⟩ : PipelineEnv).tts.exitCode ≠ 0 ∧
     (({ text := some "hi", return_audio := true } :
         ProcessRequest).audio_base64 = none ∨
      (⟨⟨0, "", "", false, ""⟩, LlmBackend.ok "fine" 1 2,
        ⟨1, "piper broke", []⟩⟩ : PipelineEnv).stt.exitCode = 0) ∧
     ({ text := some "hi", return_audio := true } :
         ProcessRequest).return_audio = true) ∧
    process { text := some "hi", return_audio := true } ⟨"a", "b", "c"⟩
        ⟨⟨0, "", "", false, ""⟩, LlmBackend.ok "fine" 1 2,
         ⟨1, "piper broke", []⟩⟩ =
      (ProcessOutcome.httpError 500 ("TTS synthesis failed: " ++ "piper broke"),
       [AdapterCall.llm, AdapterCall.tts]) :=
  ⟨⟨rfl, by decide, Or.inl rfl, rfl⟩,
   c2_amended_synthesis_failure_discards_text
     { text := some "hi", return_audio := true } ⟨"a", "b", "c"⟩
     ⟨⟨0, "", "", false, ""⟩, LlmBackend.ok "fine" 1 2, ⟨1, "piper broke", []⟩⟩
     "fine" 1 2 rfl (by decide) (Or.inl rfl) rfl⟩

/-- Claim C6: a POST /process body with text="2+2?" and
return_audio=false passes the ProcessRequest validation pass (the
validate_input validator accepts a text-only body), and — given a
generation backend that responds successfully with a non-empty text —
the endpoint returns a result with success=true, that non-empty text as
output_text, and audio_base64 null (the synthesis step is skipped). -/
theorem c6_text_only_scenario (t : String) (pe ce : Nat) (ids : JobIds)
    (env : PipelineEnv) (ht : t ≠ "") :
    validateProcessRequestFields false true = true ∧
    (process { audio_base64 := none, text := some "2+2?",
               return_audio := false } ids
        { env with llm := LlmBackend.ok t pe ce }).1 =
      ProcessOutcome.ok
        { job_id := ids.llm, input_text := some "2+2?", output_text := t,
          audio_base64 := none, format := none, success := true } ∧
    t ≠ "" := by
  refine ⟨rfl, ?_, ht⟩
  simp [process, processAfterTranscription, llmGenerate, pyOrStr]

theorem c6_text_only_scenario_witness :
    ("4" ≠ "") ∧
    (validateProcessRequestFields false true = true ∧
     (process { audio_base64 := none, text := some "2+2?",
                return_audio := false } ⟨"a", "b", "c"⟩
         ⟨⟨0, "", "", false, ""⟩, LlmBackend.ok "4" 1 2, ⟨0, "", []⟩⟩).1 =
       ProcessOutcome.ok
         { job_id := "b", input_text := some "2+2?", output_text := "4",
           audio_base64 := none, format := none, success := true } ∧
     "4" ≠ "") :=
  ⟨by decide,
   c6_text_only_scenario "4" 1 2 ⟨"a", "b", "c"⟩
     ⟨⟨0, "", "", false, ""⟩, LlmBackend.ok "4" 1 2, ⟨0, "", []⟩⟩ (by decide)⟩

/-- Claim C7 (counterexample): at the spec's own scenario input (prompt
"hi") with a successfully responding backend, the /generate endpoint
returns a plain JSON GenerationResponse, not a server-sent-event stream
— and indeed GenerationRequest has no stream flag to set, so the claimed
stream=true behavior does not exist. -/
theorem c7_counterexample :
    (generateEndpoint { prompt := "hi" } "j1"
        (LlmBackend.ok "hello" 1 2)).isSSE = false ∧
    generateEndpoint { prompt := "hi" } "j1" (LlmBackend.ok "hello" 1 2) =
      GenerateOutcome.jsonResponse
        { job_id := "j1", text := some "hello",
          model := some "agent-model:latest", success := true,
          usage := some ⟨1, 2, 3⟩, finish_reason := some "stop" } :=
  ⟨rfl, rfl⟩

/-- Claim C7 (amended): GenerationRequest carries no stream flag, and
for every request and every backend outcome the /generate endpoint
produces no server-sent-event stream (and no [DONE] sentinel): it
returns a single GenerationResponse JSON body when the adapter call
succeeds and raises HTTPException(500, error) when it fails. -/
theorem c7_amended_generate_never_streams (req : GenerationRequest)
    (jid : String) (backend : LlmBackend) :
    (generateEndpoint req jid backend).isSSE = false ∧
    ((∃ r, generateEndpoint req jid backend =
        GenerateOutcome.jsonResponse r ∧ r.success = true) ∨
     (∃ d, generateEndpoint req jid backend =
        GenerateOutcome.httpError 500 d)) := by
  cases backend with
  | ok resp pe ec => exact ⟨rfl, Or.inl ⟨_, rfl, rfl⟩⟩
  | raise e => exact ⟨rfl, Or.inr ⟨e, rfl⟩⟩

/-- Claim C9 (counterexample): a transcription call in which whisper.cpp
wrote its `--output-txt` transcript file but exited nonzero ends with
the transcript file still on disk when the call returns: the finally
block removes only the audio temp file, and the transcript file is
removed only on the success path. -/
theorem c9_counterexample :
    (sttTranscribe "j1" none ⟨1, "", "whisper crashed", true, "part"⟩).2 =
      [sttTxtPath] ∧
    (sttTranscribe "j1" none ⟨1, "", "whisper crashed", true, "part"⟩).2 ≠
      [] := by
  exact ⟨by decide, by decide⟩

/-- Claim C9 (amended): the temporary files the adapters themselves
create are removed on every exit path — the STT audio temp file never
survives a transcribe call, and a synthesize call always ends with no
remaining temp file — and an STT call whose engine exits 0 also ends
with no remaining file (the whisper-written transcript file included);
only a failing STT call can leave the engine-written transcript file
behind. -/
theorem c9_amended_scoped_cleanup (jid jid2 text fmt : String)
    (lang spk : Option String) (env : SttEnv) (tenv : TtsEnv) :
    sttTempPath ∉ (sttTranscribe jid lang env).2 ∧
    (ttsSynthesize jid2 text spk fmt tenv).2 = [] ∧
    (sttTranscribe jid lang { env with exitCode := 0 }).2 = [] := by
  refine ⟨?_, ?_, ?_⟩
  · unfold sttTranscribe
    by_cases h : env.exitCode ≠ 0 <;> by_cases hc : env.createsTxt <;>
      simp [h, hc, sttTxtPath, sttTempPath]
  · unfold ttsSynthesize
    by_cases h : tenv.exitCode ≠ 0 <;> simp [h]
  · by_cases hc : env.createsTxt <;>
      simp [sttTranscribe, hc, sttTxtPath, sttTempPath]
